import Mathlib

/-!
Shallow embedding of the Real-Time-RayTracer repository.

The application layer (class ExampleLayer) is translated directly from
src/RayTracer/src/WalnutApp.cpp, the only source file present in the
snapshot.  The Renderer, Camera and the Sphere/Material/Scene structs live
in Renderer.h/Renderer.cpp and Camera.h/Camera.cpp, which are not part of
the snapshot; every definition for them below is modelled from the
specification and carries a doc comment beginning with
`Modelled from the spec:`.

Machine floats (glm vec3 / float) are embedded as rationals.  Square roots
are embedded by a computable rational approximation `sqrtQ`; none of the
properties proved below depend on the numerical accuracy of that
approximation, only on the control flow and state-machine structure of the
program.
-/

/-- Rational stand-in for glm vec3. -/
structure Vec3 where
  x : ℚ
  y : ℚ
  z : ℚ
deriving DecidableEq

namespace Vec3

def zero : Vec3 := ⟨0, 0, 0⟩

def one : Vec3 := ⟨1, 1, 1⟩

def add (a b : Vec3) : Vec3 := ⟨a.x + b.x, a.y + b.y, a.z + b.z⟩

def sub (a b : Vec3) : Vec3 := ⟨a.x - b.x, a.y - b.y, a.z - b.z⟩

def neg (a : Vec3) : Vec3 := ⟨-a.x, -a.y, -a.z⟩

/-- componentwise product, as glm `operator*` on vectors -/
def mul (a b : Vec3) : Vec3 := ⟨a.x * b.x, a.y * b.y, a.z * b.z⟩

def smul (k : ℚ) (a : Vec3) : Vec3 := ⟨k * a.x, k * a.y, k * a.z⟩

def dot (a b : Vec3) : ℚ := a.x * b.x + a.y * b.y + a.z * b.z

def cross (a b : Vec3) : Vec3 :=
  ⟨a.y * b.z - a.z * b.y, a.z * b.x - a.x * b.z, a.x * b.y - a.y * b.x⟩

instance : Add Vec3 := ⟨Vec3.add⟩

instance : Sub Vec3 := ⟨Vec3.sub⟩

instance : Neg Vec3 := ⟨Vec3.neg⟩

instance : Mul Vec3 := ⟨Vec3.mul⟩

instance : SMul ℚ Vec3 := ⟨Vec3.smul⟩

end Vec3

/-- Rational stand-in for glm vec4 (RGBA accumulation texel). -/
structure Vec4 where
  x : ℚ
  y : ℚ
  z : ℚ
  w : ℚ
deriving DecidableEq

namespace Vec4

def zero : Vec4 := ⟨0, 0, 0, 0⟩

def add (a b : Vec4) : Vec4 := ⟨a.x + b.x, a.y + b.y, a.z + b.z, a.w + b.w⟩

instance : Add Vec4 := ⟨Vec4.add⟩

end Vec4

/-- clamp a channel to [0, 1], as glm clamp does in the resolve step -/
def clamp01 (q : ℚ) : ℚ := max 0 (min 1 q)

/-- Computable rational under-approximation of the square root, standing in
for the machine sqrt used by the intersection and normalization code.  The
properties proved in this file do not depend on its accuracy. -/
def sqrtQ (q : ℚ) : ℚ :=
  if q ≤ 0 then 0 else (Nat.sqrt (q.num.toNat * q.den) : ℚ) / (q.den : ℚ)

/-- normalize a direction vector using the rational sqrt stand-in -/
def normalizeQ (v : Vec3) : Vec3 :=
  let len := sqrtQ (v.dot v)
  if len = 0 then v else (1 / len) • v

/-- Modelled from the spec: Material struct of Renderer.h (not under src/):
albedo, roughness in [0,1], metallic in [0,1] (spec section 3). -/
structure Material where
  Albedo : Vec3
  Roughness : ℚ
  Metallic : ℚ
deriving DecidableEq

/-- Modelled from the spec: Sphere struct of Renderer.h (not under src/):
position, radius, material index into Scene.Materials (spec section 3).
MaterialIndex is a C++ int in the source (ImGui::DragInt binds it), hence
Int here. -/
structure Sphere where
  Position : Vec3
  Radius : ℚ
  MaterialIndex : Int
deriving DecidableEq

/-- Modelled from the spec: Scene struct (not under src/): ordered sphere
list and ordered material list, passive data (spec sections 3, 4.2). -/
structure Scene where
  Spheres : List Sphere
  Materials : List Material
deriving DecidableEq

/-- Modelled from the spec: the default fallback material substituted for a
ray that hits a sphere with an out-of-range material index: albedo
mid-gray, roughness 1, metallic 0 (spec section 7). -/
def defaultMaterial : Material := ⟨⟨1/2, 1/2, 1/2⟩, 1, 0⟩

/-- Modelled from the spec: default-constructed Material, as produced by
`Materials.emplace_back()` in the ExampleLayer constructor before its
fields are assigned; unspecified fields follow the spec defaults
(metallic 0). -/
def emplacedMaterial : Material := ⟨Vec3.one, 1, 0⟩

/-- Modelled from the spec: index-checked material lookup; an out-of-range
index (negative or beyond the list) yields `defaultMaterial` for that ray
only (spec sections 4.3b, 7). -/
def lookupMaterial (mats : List Material) (idx : Int) : Material :=
  if 0 ≤ idx then mats.getD idx.toNat defaultMaterial else defaultMaterial

/-- The scene built by the ExampleLayer constructor, WalnutApp.cpp lines
27-56: two materials (magenta roughness 0; blue roughness 0.1) and two
spheres (unit sphere at the origin with material 0; ground sphere at
(0,-101,0) radius 100 with material 1). -/
def initialScene : Scene :=
  { Spheres :=
      [ { Position := ⟨0, 0, 0⟩, Radius := 1, MaterialIndex := 0 },
        { Position := ⟨0, -101, 0⟩, Radius := 100, MaterialIndex := 1 } ],
    Materials :=
      [ { emplacedMaterial with Albedo := ⟨1, 0, 1⟩, Roughness := 0 },
        { emplacedMaterial with Albedo := ⟨2/10, 3/10, 1⟩, Roughness := 1/10 } ] }

/-- Modelled from the spec: word size of the counter-based pseudo-random
generator state (32-bit hashes, spec section 9). -/
def rngMod : Nat := 2 ^ 32

/-- Modelled from the spec: one step of a PCG-style counter-based generator
over 32-bit state (spec section 9 mandates a deterministic hash-based
generator; the exact constants are an implementation detail). -/
def pcgStep (s : Nat) : Nat := (s * 747796405 + 2891336453) % rngMod

/-- Modelled from the spec: the per-pixel, per-sample generator seed derived
deterministically from (pixelIndex, frameIndex) alone (spec sections 4.3f
and 9). -/
def seedFor (pixelIndex frameIndex : Nat) : Nat :=
  pcgStep ((pixelIndex + frameIndex * 2654435761) % rngMod)

/-- draw a uniform sample in [0, 1) and the successor generator state -/
def randUnit (s : Nat) : ℚ × Nat :=
  let s2 := pcgStep s
  ((s2 : ℚ) / (rngMod : ℚ), s2)

/-- draw a uniform sample in [-1, 1) and the successor generator state -/
def randSym (s : Nat) : ℚ × Nat :=
  let u := randUnit s
  (2 * u.1 - 1, u.2)

/-- Modelled from the spec: self-intersection epsilon for the reflected-ray
origin and the minimum accepted hit distance (spec section 4.3a,e). -/
def epsHit : ℚ := 1 / 10000

/-- Modelled from the spec: ray-sphere intersection (spec section 4.3a):
quadratic discriminant test keeping the closest hit with t above the
epsilon; a degenerate radius (at most 0) never intersects and the division
in the normal computation is guarded by that same test (spec section 7). -/
def hitSphere (origin dir : Vec3) (s : Sphere) : Option ℚ :=
  if s.Radius ≤ 0 then none
  else
    let oc := origin - s.Position
    let a := dir.dot dir
    let b := 2 * oc.dot dir
    let c := oc.dot oc - s.Radius * s.Radius
    let disc := b * b - 4 * a * c
    if disc < 0 ∨ a = 0 then none
    else
      let t := (-b - sqrtQ disc) / (2 * a)
      if epsHit < t then some t else none

/-- Modelled from the spec: intersect the ray against every sphere in the
scene and keep the closest accepted hit (spec section 4.3a). -/
def closestHit (scene : Scene) (origin dir : Vec3) : Option (Sphere × ℚ) :=
  scene.Spheres.foldl
    (fun best s =>
      match hitSphere origin dir s with
      | none => best
      | some t =>
        match best with
        | none => some (s, t)
        | some p => if t < p.2 then some (s, t) else best)
    none

/-- Modelled from the spec: ambient/sky term contributed on a miss; the
exact color is a configuration constant not fixed by the spec (spec
sections 4.3a and 9). -/
def skyColor : Vec3 := ⟨6/10, 7/10, 9/10⟩

/-- Modelled from the spec: fixed bounce limit of the per-pixel trace (spec
section 4.3 step 2 suggests 5). -/
def bounceLimit : Nat := 5

/-- mirror reflection of an incident direction about a surface normal -/
def reflect (d n : Vec3) : Vec3 := d - (2 * d.dot n) • n

/-- Modelled from the spec: a random scatter direction in the hemisphere of
the normal, drawn from the counter-based generator (spec section 4.3e). -/
def randomHemisphere (n : Vec3) (s : Nat) : Vec3 × Nat :=
  let r1 := randSym s
  let r2 := randSym r1.2
  let r3 := randSym r2.2
  let v : Vec3 := ⟨r1.1, r2.1, r3.1⟩
  (if v.dot n < 0 then v.neg else v, r3.2)

/-- componentwise linear interpolation between two vectors -/
def lerpV (a b : Vec3) (t : ℚ) : Vec3 := ((1 - t) • a) + (t • b)

/-- Modelled from the spec: the multi-bounce trace loop of section 4.3
step 2, structurally recursive on the remaining bounce budget: find the
closest hit; on a miss add the sky term modulated by the throughput and
stop; on a hit compute the normal from the hit point, look up the material
through the index-checked `lookupMaterial`, attenuate the throughput by the
albedo and by the metallic tint toward the albedo, offset the next origin
by epsilon along the normal, and scatter between the mirror reflection and
a random hemisphere direction interpolated by the roughness. -/
def traceRay (scene : Scene) : Nat → Vec3 → Vec3 → Nat → Vec3 → Vec3 → Vec3
  | 0, _, _, _, light, _ => light
  | Nat.succ bounces, origin, dir, rng, light, throughput =>
    match closestHit scene origin dir with
    | none => light + throughput * skyColor
    | some hit =>
      let hitPoint := origin + hit.2 • dir
      let normal := (1 / hit.1.Radius) • (hitPoint - hit.1.Position)
      let mat := lookupMaterial scene.Materials hit.1.MaterialIndex
      let tint := lerpV Vec3.one mat.Albedo mat.Metallic
      let throughput2 := throughput * mat.Albedo * tint
      let origin2 := hitPoint + epsHit • normal
      let hemi := randomHemisphere normal rng
      let dir2 := lerpV (reflect dir normal) hemi.1 mat.Roughness
      traceRay scene bounces origin2 dir2 hemi.2 light throughput2

/-- Modelled from the spec: Camera state (Camera.h/Camera.cpp not under
src/): view position and orientation, projection parameters, integer
viewport dimensions and the cached per-pixel ray-direction buffer (spec
sections 3 and 4.1). -/
structure Camera where
  position : Vec3
  forwardDirection : Vec3
  verticalFOV : ℚ
  nearClip : ℚ
  farClip : ℚ
  viewportWidth : Nat
  viewportHeight : Nat
  rayDirections : List Vec3
deriving DecidableEq

/-- world up vector used for the camera basis -/
def upDirection : Vec3 := ⟨0, 1, 0⟩

/-- Modelled from the spec: cached ray direction for one pixel (spec
section 4.1): the device coordinate is mapped to [-1,1]x[-1,1] normalized
device space with the y axis flipped so row 0 is the image top, scaled by
the field of view and aspect ratio, and the world direction is normalized.
The exact inverse projection/view matrix arithmetic uses trigonometry that
has no exact rational form; the field-of-view scale below is a rational
stand-in, irrelevant to every property proved in this file. -/
def Camera.rayDirAt (c : Camera) (w h x y : Nat) : Vec3 :=
  let cx : ℚ := 2 * (((x : ℚ) + 1 / 2) / (w : ℚ)) - 1
  let cy : ℚ := -(2 * (((y : ℚ) + 1 / 2) / (h : ℚ)) - 1)
  let fovScale : ℚ := c.verticalFOV / 90
  let aspect : ℚ := (w : ℚ) / (h : ℚ)
  let right := c.forwardDirection.cross upDirection
  normalizeQ
    (c.forwardDirection + (cx * fovScale * aspect) • right + (cy * fovScale) • upDirection)

/-- Modelled from the spec: regenerate the whole width*height ray-direction
cache in row-major pixel order (spec sections 3, 4.1). -/
def computeRayDirections (c : Camera) (w h : Nat) : List Vec3 :=
  (List.range (w * h)).map (fun p => c.rayDirAt w h (p % w) (p / w))

/-- Modelled from the spec: Camera resize (spec sections 4.1 and 6): a
no-op on zero or negative or unchanged dimensions, otherwise updates the
viewport dimensions and regenerates every cached ray direction. -/
def Camera.OnResize (c : Camera) (w h : Int) : Camera :=
  if w ≤ 0 ∨ h ≤ 0 then c
  else if (c.viewportWidth : Int) = w ∧ (c.viewportHeight : Int) = h then c
  else
    { c with
        viewportWidth := w.toNat
        viewportHeight := h.toNat
        rayDirections := computeRayDirections c w.toNat h.toNat }

/-- O(1) lookup into the cached ray-direction buffer (spec section 4.1). -/
def Camera.GetRayDirection (c : Camera) (x y : Nat) : Vec3 :=
  c.rayDirections.getD (x + y * c.viewportWidth) Vec3.zero

/-- Modelled from the spec: per-frame directional/mouse-look input snapshot
consumed by Camera update (spec sections 4.1 and 6). -/
structure CameraInput where
  forwardAmt : ℚ
  rightAmt : ℚ
  upAmt : ℚ
  lookDeltaX : ℚ
  lookDeltaY : ℚ
  fastModifier : Bool
deriving DecidableEq

/-- Modelled from the spec: translation accumulated over the elapsed time
along the forward/right/up basis, scaled by a fixed speed that doubles
while the modifier key is held (spec section 4.1). -/
def cameraMovement (c : Camera) (ts : ℚ) (inp : CameraInput) : Vec3 :=
  let speed : ℚ := if inp.fastModifier then 10 else 5
  let right := c.forwardDirection.cross upDirection
  (speed * ts) •
    (inp.forwardAmt • c.forwardDirection + inp.rightAmt • right + inp.upAmt • upDirection)

/-- Modelled from the spec: yaw/pitch rotation of the forward direction
derived from the mouse look delta; the spec fixes no exact rotation
formula, modelled as a normalized first-order step (spec section 4.1). -/
def rotateForward (c : Camera) (dx dy : ℚ) : Vec3 :=
  let right := c.forwardDirection.cross upDirection
  normalizeQ (c.forwardDirection + dx • right + (-dy) • upDirection)

/-- Modelled from the spec: Camera update (spec section 4.1): consumes the
input snapshot, translates the position and rotates the orientation, and
returns true precisely when position or orientation actually changed
(nonzero movement or nonzero look delta); with no movement and no look
delta it returns false and leaves every field, including the cached ray
directions, untouched.  The ray-direction cache is regenerated exactly when
the orientation changed (spec sections 3 and 9). -/
def Camera.OnUpdate (c : Camera) (ts : ℚ) (inp : CameraInput) : Camera × Bool :=
  let movement := cameraMovement c ts inp
  if movement = Vec3.zero ∧ inp.lookDeltaX = 0 ∧ inp.lookDeltaY = 0 then (c, false)
  else
    let fwd2 :=
      if inp.lookDeltaX = 0 ∧ inp.lookDeltaY = 0 then c.forwardDirection
      else rotateForward c inp.lookDeltaX inp.lookDeltaY
    let c2 : Camera := { c with position := c.position + movement, forwardDirection := fwd2 }
    let dirs2 :=
      if inp.lookDeltaX = 0 ∧ inp.lookDeltaY = 0 then c.rayDirections
      else computeRayDirections c2 c.viewportWidth c.viewportHeight
    ({ c2 with rayDirections := dirs2 }, true)

/-- one display-ready RGBA8 texel -/
structure RGBA8 where
  r : Nat
  g : Nat
  b : Nat
  a : Nat
deriving DecidableEq

/-- Modelled from the spec: the display-ready image buffer owned by the
Renderer and handed read-only to the presenter (spec sections 3 and 4.3). -/
structure FinalImage where
  width : Nat
  height : Nat
  data : List RGBA8
deriving DecidableEq

/-- Modelled from the spec: Renderer settings, a single accumulate flag
toggled externally (spec sections 3 and 6). -/
structure Settings where
  Accumulate : Bool
deriving DecidableEq

/-- Modelled from the spec: Renderer state (Renderer.h/Renderer.cpp not
under src/): optional final image (none before the first successful
resize), float accumulation buffer, frame index and settings (spec
section 3). -/
structure Renderer where
  finalImage : Option FinalImage
  accumulation : List Vec4
  frameIndex : Nat
  settings : Settings
deriving DecidableEq

/-- a renderer before any resize: no buffers, frameIndex 1, accumulate on -/
def initialRenderer : Renderer := ⟨none, [], 1, ⟨true⟩⟩

/-- viewport width of the renderer, 0 while no image has been allocated -/
def Renderer.width (r : Renderer) : Nat := (r.finalImage.map FinalImage.width).getD 0

/-- viewport height of the renderer, 0 while no image has been allocated -/
def Renderer.height (r : Renderer) : Nat := (r.finalImage.map FinalImage.height).getD 0

/-- Modelled from the spec: ResetFrameIndex sets frameIndex to 1 and zeroes
the accumulation buffer in place (spec section 4.3). -/
def Renderer.ResetFrameIndex (r : Renderer) : Renderer :=
  { r with frameIndex := 1, accumulation := r.accumulation.map (fun _ => Vec4.zero) }

/-- Modelled from the spec: Renderer resize (spec sections 4.3 and 7): a
no-op on zero or negative dimensions and on unchanged dimensions with the
buffers already allocated; otherwise reallocates the final image and the
accumulation buffer to width*height texels and resets the frame index. -/
def Renderer.OnResize (r : Renderer) (w h : Int) : Renderer :=
  if w ≤ 0 ∨ h ≤ 0 then r
  else
    match r.finalImage with
    | some img =>
      if (img.width : Int) = w ∧ (img.height : Int) = h then r
      else
        { r with
            finalImage := some ⟨w.toNat, h.toNat, List.replicate (w.toNat * h.toNat) ⟨0, 0, 0, 0⟩⟩
            accumulation := List.replicate (w.toNat * h.toNat) Vec4.zero
            frameIndex := 1 }
    | none =>
      { r with
          finalImage := some ⟨w.toNat, h.toNat, List.replicate (w.toNat * h.toNat) ⟨0, 0, 0, 0⟩⟩
          accumulation := List.replicate (w.toNat * h.toNat) Vec4.zero
          frameIndex := 1 }

/-- read-only handle to the most recently resolved image (spec section
4.3); null until a successful resize has allocated it. -/
def Renderer.GetFinalImage (r : Renderer) : Option FinalImage := r.finalImage

/-- Modelled from the spec: resolve one accumulation texel for display
(spec section 4.3 step 4): divide by the frame index, clamp every channel
to [0,1] and convert to the 8-bit display encoding. -/
def toDisplay (v : Vec4) (frameIndex : Nat) : RGBA8 :=
  let conv : ℚ → Nat := fun q => (Int.floor (255 * clamp01 (q / (frameIndex : ℚ)))).toNat
  ⟨conv v.x, conv v.y, conv v.z, conv v.w⟩

/-- Modelled from the spec: the per-pixel trace of one sample (spec section
4.3 steps 1-2): origin is the camera position, direction is the O(1) cache
lookup, light starts at (0,0,0), throughput at (1,1,1), and the generator
is seeded deterministically from (pixelIndex, frameIndex). -/
def renderPixel (scene : Scene) (cam : Camera) (w frameIndex p : Nat) : Vec3 :=
  traceRay scene bounceLimit cam.position (cam.GetRayDirection (p % w) (p / w))
    (seedFor p frameIndex) Vec3.zero Vec3.one

/-- Modelled from the spec: the per-pixel trace as invoked in a process
whose ambient global random-generator state is `ambientRng`.  The design
replaces any global generator by the counter-based one seeded from
(pixelIndex, frameIndex), so the ambient state is consulted nowhere; this
wrapper makes that independence a provable statement (spec sections 4.3f,
8 and 9). -/
def renderPixelAmbient (_ambientRng : Nat) (scene : Scene) (cam : Camera)
    (w frameIndex p : Nat) : Vec3 :=
  renderPixel scene cam w frameIndex p

/-- Modelled from the spec: one full-frame sampling pass (spec section 4.3
steps 1-5): for every pixel of the allocated image, trace one sample; with
accumulation on, add it into the accumulation buffer, otherwise overwrite
the buffer with the fresh sample; resolve every texel through `toDisplay`
with the current frame index; finally increment the frame index when
accumulating, else pin it at 1. -/
def Renderer.Render (r : Renderer) (scene : Scene) (cam : Camera) : Renderer :=
  match r.finalImage with
  | none => { r with frameIndex := if r.settings.Accumulate then r.frameIndex + 1 else 1 }
  | some img =>
    let acc2 := (List.range (img.width * img.height)).map (fun p =>
      let sample := renderPixel scene cam img.width r.frameIndex p
      let s4 : Vec4 := ⟨sample.x, sample.y, sample.z, 1⟩
      if r.settings.Accumulate then r.accumulation.getD p Vec4.zero + s4 else s4)
    { r with
        accumulation := acc2
        finalImage := some { img with data := acc2.map (fun v => toDisplay v r.frameIndex) }
        frameIndex := if r.settings.Accumulate then r.frameIndex + 1 else 1 }

/-- n consecutive render calls on the same scene and camera -/
def Renderer.renderN (r : Renderer) (scene : Scene) (cam : Camera) : Nat → Renderer
  | 0 => r
  | Nat.succ n => (r.renderN scene cam n).Render scene cam

/-- The application layer of WalnutApp.cpp: renderer, camera, scene and the
cached viewport dimensions (lines 300-306). -/
structure ExampleLayer where
  m_Renderer : Renderer
  m_Camera : Camera
  m_Scene : Scene
  m_ViewportWidth : Nat
  m_ViewportHeight : Nat
deriving DecidableEq

/-- Modelled from the spec: the camera constructed as Camera(45, 0.1, 100)
in WalnutApp.cpp line 28; initial position (0,0,6) looking at the origin
per spec section 8, empty ray cache until the first resize. -/
def initialCamera : Camera :=
  { position := ⟨0, 0, 6⟩
    forwardDirection := ⟨0, 0, -1⟩
    verticalFOV := 45
    nearClip := 1/10
    farClip := 100
    viewportWidth := 0
    viewportHeight := 0
    rayDirections := [] }

/-- The ExampleLayer constructor, WalnutApp.cpp lines 27-56. -/
def initialLayer : ExampleLayer :=
  { m_Renderer := initialRenderer
    m_Camera := initialCamera
    m_Scene := initialScene
    m_ViewportWidth := 0
    m_ViewportHeight := 0 }

/-- ExampleLayer::OnUpdate, WalnutApp.cpp lines 58-63: run the camera
update and call ResetFrameIndex exactly when it returned true. -/
def ExampleLayer.OnUpdate (l : ExampleLayer) (ts : ℚ) (inp : CameraInput) : ExampleLayer :=
  let res := l.m_Camera.OnUpdate ts inp
  if res.2 then { l with m_Camera := res.1, m_Renderer := l.m_Renderer.ResetFrameIndex }
  else { l with m_Camera := res.1 }

/-- edit one list entry in place, leaving every other entry untouched -/
def modifyAt (f : α → α) : Nat → List α → List α
  | _, [] => []
  | 0, a :: as => f a :: as
  | Nat.succ n, a :: as => a :: modifyAt f n as

/-- an ImGui drag on an int bound to [lo, hi], as DragInt with min/max
arguments clamps the dragged value (WalnutApp.cpp line 90) -/
def dragIntClamped (v delta lo hi : Int) : Int := max lo (min hi (v + delta))

/-- an ImGui drag on a float bound to [lo, hi], as DragFloat with min/max
arguments clamps the dragged value (WalnutApp.cpp lines 102-103) -/
def dragFloatClamped (v delta lo hi : ℚ) : ℚ := max lo (min hi (v + delta))

/-- One edit performed through the Scene window of WalnutApp.cpp lines
83-108: unbounded drags on sphere position and radius, a drag on the
material index clamped to [0, Materials.size()-1], a color edit on the
albedo (UI-clamped to [0,1] per spec section 3) and drags on roughness and
metallic clamped to [0,1]. -/
inductive SceneEdit where
  | spherePosition (i : Nat) (delta : Vec3)
  | sphereRadius (i : Nat) (delta : ℚ)
  | sphereMaterial (i : Nat) (delta : Int)
  | materialAlbedo (i : Nat) (rgb : Vec3)
  | materialRoughness (i : Nat) (delta : ℚ)
  | materialMetallic (i : Nat) (delta : ℚ)

/-- apply one Scene-window edit, WalnutApp.cpp lines 83-108 -/
def applyEdit (scene : Scene) (e : SceneEdit) : Scene :=
  match e with
  | .spherePosition i d =>
    let f := fun (s : Sphere) => { s with Position := s.Position + d }
    { scene with Spheres := modifyAt f i scene.Spheres }
  | .sphereRadius i d =>
    let f := fun (s : Sphere) => { s with Radius := s.Radius + d }
    { scene with Spheres := modifyAt f i scene.Spheres }
  | .sphereMaterial i d =>
    let hi := (scene.Materials.length : Int) - 1
    let f := fun (s : Sphere) => { s with MaterialIndex := dragIntClamped s.MaterialIndex d 0 hi }
    { scene with Spheres := modifyAt f i scene.Spheres }
  | .materialAlbedo i rgb =>
    let f := fun (m : Material) => { m with Albedo := ⟨clamp01 rgb.x, clamp01 rgb.y, clamp01 rgb.z⟩ }
    { scene with Materials := modifyAt f i scene.Materials }
  | .materialRoughness i d =>
    let f := fun (m : Material) => { m with Roughness := dragFloatClamped m.Roughness d 0 1 }
    { scene with Materials := modifyAt f i scene.Materials }
  | .materialMetallic i d =>
    let f := fun (m : Material) => { m with Metallic := dragFloatClamped m.Metallic d 0 1 }
    { scene with Materials := modifyAt f i scene.Materials }

/-- ExampleLayer::Render, WalnutApp.cpp lines 289-298: renderer resize with
the cached viewport dimensions, camera resize with the same dimensions,
then the render pass over the scene with the resized camera. -/
def ExampleLayer.Render (l : ExampleLayer) : ExampleLayer :=
  let r1 := l.m_Renderer.OnResize (l.m_ViewportWidth : Int) (l.m_ViewportHeight : Int)
  let cam2 := l.m_Camera.OnResize (l.m_ViewportWidth : Int) (l.m_ViewportHeight : Int)
  { l with m_Renderer := r1.Render l.m_Scene cam2, m_Camera := cam2 }

/-- One frame of UI interaction consumed by ExampleLayer::OnUIRender: the
Render button, the Accumulate checkbox value, the Reset button, the list of
Scene-window edits performed this frame, and the viewport size reported by
ImGui::GetContentRegionAvail (WalnutApp.cpp lines 65-116). -/
structure UIInput where
  renderButton : Bool
  accumulateChecked : Bool
  resetButton : Bool
  edits : List SceneEdit
  availW : Nat
  availH : Nat

/-- ExampleLayer::OnUIRender, WalnutApp.cpp lines 65-287, in source order:
the Render button triggers an extra Render() call (line 72); the checkbox
stores the accumulate flag (line 75); the Reset button calls
ResetFrameIndex (line 78); the Scene window applies the field edits (lines
83-108); the Viewport window stores the available size (lines 115-116) and
reads GetFinalImage for display (lines 118-121, state unchanged); finally
Render() runs unconditionally (line 285). -/
def ExampleLayer.OnUIRender (l : ExampleLayer) (ui : UIInput) : ExampleLayer :=
  let l1 := if ui.renderButton then l.Render else l
  let l2 := { l1 with m_Renderer := { l1.m_Renderer with settings := ⟨ui.accumulateChecked⟩ } }
  let l3 := if ui.resetButton then { l2 with m_Renderer := l2.m_Renderer.ResetFrameIndex } else l2
  let l4 := { l3 with m_Scene := ui.edits.foldl applyEdit l3.m_Scene }
  let l5 := { l4 with m_ViewportWidth := ui.availW, m_ViewportHeight := ui.availH }
  l5.Render

/-- The viewport presentation of WalnutApp.cpp lines 118-121: the handle
returned by GetFinalImage is tested before use; only inside the non-null
branch are its descriptor and dimensions read to emit a draw, otherwise
nothing is drawn. -/
def viewportImage (img : Option FinalImage) : Option (FinalImage × ℚ × ℚ) :=
  match img with
  | none => none
  | some i => some (i, ((i.width : ℚ), (i.height : ℚ)))

/-- the externally observable operations of one application frame -/
inductive FrameOp where
  | camUpdate
  | resetFrameIndex
  | onResize
  | camResize
  | render
  | getFinalImage
deriving DecidableEq

/-- the operations performed by one ExampleLayer::Render call, WalnutApp.cpp
lines 289-298 -/
def renderCallTrace : List FrameOp := [FrameOp.onResize, FrameOp.camResize, FrameOp.render]

/-- The operation trace of one application frame, read off WalnutApp.cpp:
OnUpdate (lines 58-63) runs the camera update and conditionally the reset;
then OnUIRender (lines 65-287) runs Render() when the button was pressed
(line 72), conditionally the reset (line 78), reads GetFinalImage in the
Viewport window (line 118), and always ends with Render() (line 285). -/
def frameTrace (cameraMoved renderButton resetButton : Bool) : List FrameOp :=
  [FrameOp.camUpdate]
    ++ (if cameraMoved then [FrameOp.resetFrameIndex] else [])
    ++ (if renderButton then renderCallTrace else [])
    ++ (if resetButton then [FrameOp.resetFrameIndex] else [])
    ++ [FrameOp.getFinalImage]
    ++ renderCallTrace

/-- a sphere referencing material 7 in a scene with only two materials -/
def c6Sphere : Sphere := { Position := ⟨0, 0, 0⟩, Radius := 1, MaterialIndex := 7 }

/-- the initial materials with the single out-of-range sphere -/
def c6Scene : Scene := { Spheres := [c6Sphere], Materials := initialScene.Materials }

/-- sphere 0 of the initial scene after a +7 material-index drag: the index
lands on the clamp upper bound 1, not on 7 -/
def c10EditedSphere : Sphere := { Position := ⟨0, 0, 0⟩, Radius := 1, MaterialIndex := 1 }

/-- a 1x1 final image already allocated before the frame under scrutiny -/
def c2Image : FinalImage := ⟨1, 1, [⟨0, 0, 0, 255⟩]⟩

/-- a renderer mid-accumulation: 4 samples accumulated, frameIndex 5 -/
def c2Renderer : Renderer := ⟨some c2Image, [⟨1, 1, 1, 4⟩], 5, ⟨true⟩⟩

/-- a camera already resized to the same 1x1 viewport -/
def c2Camera : Camera :=
  { position := ⟨0, 0, 6⟩
    forwardDirection := ⟨0, 0, 1⟩
    verticalFOV := 45
    nearClip := 1/10
    farClip := 100
    viewportWidth := 1
    viewportHeight := 1
    rayDirections := [⟨0, 0, 1⟩] }

/-- the layer state entering the frame under scrutiny -/
def c2Layer : ExampleLayer := ⟨c2Renderer, c2Camera, initialScene, 1, 1⟩

/-- the UI interaction of that frame: no buttons, accumulate on, one
sphere-radius drag in the scene editor, unchanged 1x1 viewport -/
def c2UI : UIInput :=
  { renderButton := false
    accumulateChecked := true
    resetButton := false
    edits := [SceneEdit.sphereRadius 0 (1/10)]
    availW := 1
    availH := 1 }

/-- a renderer mid-accumulation at frameIndex 7, for the amended-claim
witness frame -/
def w2Renderer : Renderer := ⟨some c2Image, [⟨1, 1, 1, 6⟩], 7, ⟨true⟩⟩

/-- the layer state entering the witness frame -/
def w2Layer : ExampleLayer := ⟨w2Renderer, c2Camera, initialScene, 1, 1⟩

/-! Helper lemmas shared by the claim theorems. -/

theorem render_frameIndex_eq (r : Renderer) (scene : Scene) (cam : Camera) :
    (r.Render scene cam).frameIndex = if r.settings.Accumulate then r.frameIndex + 1 else 1 := by
  cases h : r.finalImage <;> simp [Renderer.Render, h]

theorem render_settings_eq (r : Renderer) (scene : Scene) (cam : Camera) :
    (r.Render scene cam).settings = r.settings := by
  cases h : r.finalImage <;> simp [Renderer.Render, h]

theorem onResize_noop_nonpositive (r : Renderer) (w h : Int) (hwh : w ≤ 0 ∨ h ≤ 0) :
    r.OnResize w h = r := by
  simp [Renderer.OnResize, hwh]

theorem onResize_noop_unchanged (r : Renderer) (w h : Int)
    (hw : (r.width : Int) = w) (hh : (r.height : Int) = h)
    (hwpos : 0 < w) (hhpos : 0 < h) : r.OnResize w h = r := by
  cases himg : r.finalImage with
  | none =>
    exfalso
    rw [Renderer.width, himg] at hw
    simp at hw
    omega
  | some img =>
    have hw2 : (img.width : Int) = w := by rw [Renderer.width, himg] at hw; simpa using hw
    have hh2 : (img.height : Int) = h := by rw [Renderer.height, himg] at hh; simpa using hh
    have hcond : ¬(w ≤ 0 ∨ h ≤ 0) := by omega
    simp [Renderer.OnResize, hcond, himg, hw2, hh2]

theorem camResize_noop_nonpositive (c : Camera) (w h : Int) (hwh : w ≤ 0 ∨ h ≤ 0) :
    c.OnResize w h = c := by
  simp [Camera.OnResize, hwh]

theorem camResize_noop_unchanged (c : Camera) (w h : Int)
    (hw : (c.viewportWidth : Int) = w) (hh : (c.viewportHeight : Int) = h) :
    c.OnResize w h = c := by
  by_cases hwh : w ≤ 0 ∨ h ≤ 0
  · simp [Camera.OnResize, hwh]
  · simp [Camera.OnResize, hwh, hw, hh]

/-! Claim theorems. -/

/-- C4: the application's initial scene consists of exactly two spheres and
two materials: a sphere at the origin with radius 1 referencing material 0
(albedo (1,0,1), roughness 0) and a ground sphere at (0,-101,0) with
radius 100 referencing material 1 (albedo (0.2,0.3,1), roughness 0.1). -/
theorem initial_scene_as_specified :
    initialLayer.m_Scene.Spheres =
        [ { Position := ⟨0, 0, 0⟩, Radius := 1, MaterialIndex := 0 },
          { Position := ⟨0, -101, 0⟩, Radius := 100, MaterialIndex := 1 } ] ∧
    initialLayer.m_Scene.Materials.map Material.Albedo = [⟨1, 0, 1⟩, ⟨2/10, 3/10, 1⟩] ∧
    initialLayer.m_Scene.Materials.map Material.Roughness = [0, 1/10] ∧
    initialLayer.m_Scene.Spheres.length = 2 ∧
    initialLayer.m_Scene.Materials.length = 2 :=
  ⟨rfl, rfl, rfl, rfl, rfl⟩

/-- C1: on every update tick the layer invokes ResetFrameIndex on the
renderer exactly when Camera.OnUpdate returned true, leaves the renderer
(and so the accumulated samples) untouched otherwise, and the camera
returns true precisely when the movement or the look delta was nonzero. -/
theorem on_update_resets_iff_camera_changed (l : ExampleLayer) (ts : ℚ) (inp : CameraInput) :
    (l.OnUpdate ts inp).m_Renderer =
        (if (l.m_Camera.OnUpdate ts inp).2 then l.m_Renderer.ResetFrameIndex
         else l.m_Renderer) ∧
    (l.OnUpdate ts inp).m_Camera = (l.m_Camera.OnUpdate ts inp).1 ∧
    ((l.m_Camera.OnUpdate ts inp).2 = false ↔
        cameraMovement l.m_Camera ts inp = Vec3.zero ∧
          inp.lookDeltaX = 0 ∧ inp.lookDeltaY = 0) := by
  refine ⟨?_, ?_, ?_⟩
  · cases h : (l.m_Camera.OnUpdate ts inp).2 <;> simp [ExampleLayer.OnUpdate, h]
  · cases h : (l.m_Camera.OnUpdate ts inp).2 <;> simp [ExampleLayer.OnUpdate, h]
  · unfold Camera.OnUpdate
    by_cases h : cameraMovement l.m_Camera ts inp = Vec3.zero ∧
        inp.lookDeltaX = 0 ∧ inp.lookDeltaY = 0
    · simp [h]
    · simp [h]

/-- C3 counterexample: in a frame with no button pressed and no camera
motion the operation order is camera update, then GetFinalImage, then
renderer resize, camera resize and render - the exposure of the image
precedes the render pass instead of following it; and with the Render
button pressed the render pass runs twice in the frame, not exactly once. -/
theorem frame_order_counterexample :
    frameTrace false false false =
        [FrameOp.camUpdate, FrameOp.getFinalImage, FrameOp.onResize,
         FrameOp.camResize, FrameOp.render] ∧
    frameTrace false false false ≠
        [FrameOp.camUpdate, FrameOp.onResize, FrameOp.camResize,
         FrameOp.render, FrameOp.getFinalImage] ∧
    (frameTrace false true false).count FrameOp.render = 2 := by
  refine ⟨rfl, by decide, by decide⟩

/-- C3 amended: in every application frame in which the Render button is
not pressed, camera update runs first and the operations GetFinalImage,
renderer resize, camera resize and render each occur exactly once, in that
order, at the end of the frame - so the image exposed for display during a
frame is the one resolved by the previous frame's render; pressing the
Render button inserts a second full render call before the display. -/
theorem frame_trace_order (cameraMoved resetButton : Bool) :
    frameTrace cameraMoved false resetButton =
        [FrameOp.camUpdate]
          ++ (if cameraMoved then [FrameOp.resetFrameIndex] else [])
          ++ (if resetButton then [FrameOp.resetFrameIndex] else [])
          ++ [FrameOp.getFinalImage, FrameOp.onResize, FrameOp.camResize, FrameOp.render] ∧
    (frameTrace cameraMoved false resetButton).count FrameOp.render = 1 ∧
    (frameTrace cameraMoved false resetButton).count FrameOp.camUpdate = 1 ∧
    (frameTrace cameraMoved false resetButton).count FrameOp.onResize = 1 ∧
    (frameTrace cameraMoved false resetButton).count FrameOp.camResize = 1 ∧
    (frameTrace cameraMoved false resetButton).count FrameOp.getFinalImage = 1 ∧
    (frameTrace cameraMoved true resetButton).count FrameOp.render = 2 := by
  cases cameraMoved <;> cases resetButton <;> exact ⟨rfl, by decide, by decide, by decide,
    by decide, by decide, by decide⟩

/-- C8: the per-pixel trace is bit-reproducible - its output is a function
of the scene, camera, viewport width and frameIndex alone; in particular it
is independent of the ambient global random-generator state, because the
generator it draws from is re-seeded deterministically from
(pixelIndex, frameIndex) via seedFor. -/
theorem per_pixel_trace_deterministic (g1 g2 : Nat) (scene : Scene) (cam : Camera)
    (w frameIndex p : Nat) :
    renderPixelAmbient g1 scene cam w frameIndex p =
        renderPixelAmbient g2 scene cam w frameIndex p ∧
    renderPixelAmbient g1 scene cam w frameIndex p =
        traceRay scene bounceLimit cam.position (cam.GetRayDirection (p % w) (p / w))
          (seedFor p frameIndex) Vec3.zero Vec3.one :=
  ⟨rfl, rfl⟩

/-- C9: the presentation code dereferences the GetFinalImage handle only
behind a non-null test - a null handle draws nothing, a non-null handle
draws exactly that image with its own dimensions. -/
theorem viewport_draws_only_nonnull :
    (∀ r : Renderer, r.GetFinalImage = none → viewportImage r.GetFinalImage = none) ∧
    (∀ (r : Renderer) (img : FinalImage), r.GetFinalImage = some img →
        viewportImage r.GetFinalImage = some (img, ((img.width : ℚ), (img.height : ℚ)))) := by
  constructor
  · intro r h
    rw [h]
    rfl
  · intro r img h
    rw [h]
    rfl

/-- C9 witness: before any resize the renderer's handle is null and the
viewport draws nothing. -/
theorem viewport_draws_only_nonnull_witness :
    viewportImage initialRenderer.GetFinalImage = none :=
  viewport_draws_only_nonnull.1 initialRenderer rfl

theorem renderN_settings_eq (r : Renderer) (scene : Scene) (cam : Camera) (n : Nat) :
    (r.renderN scene cam n).settings = r.settings := by
  induction n with
  | zero => rfl
  | succ k ih => rw [Renderer.renderN, render_settings_eq, ih]

/-- C5: every render call sets the frame index to its prior value plus one
when accumulation is on and pins it at 1 when accumulation is off; hence n
consecutive accumulating render calls starting from frameIndex 1 end with
frameIndex n+1. -/
theorem render_increments_frame_index :
    (∀ (r : Renderer) (scene : Scene) (cam : Camera),
        (r.Render scene cam).frameIndex =
          if r.settings.Accumulate then r.frameIndex + 1 else 1) ∧
    (∀ (r : Renderer) (scene : Scene) (cam : Camera) (n : Nat),
        r.settings.Accumulate = true → r.frameIndex = 1 →
        (r.renderN scene cam n).frameIndex = n + 1) := by
  constructor
  · exact render_frameIndex_eq
  · intro r scene cam n hacc hfi
    induction n with
    | zero => simpa [Renderer.renderN] using hfi
    | succ k ih =>
      rw [Renderer.renderN, render_frameIndex_eq, renderN_settings_eq, hacc, if_pos rfl, ih]

/-- C5 witness: ten accumulating render calls starting from the initial
renderer (frameIndex 1) end with frameIndex 11. -/
theorem render_increments_frame_index_witness :
    (initialRenderer.renderN initialScene initialCamera 10).frameIndex = 11 :=
  render_increments_frame_index.2 initialRenderer initialScene initialCamera 10 rfl rfl

/-- C7: every resize call (Renderer.OnResize or Camera.OnResize) with zero,
negative, or unchanged dimensions returns the state unchanged: buffers keep
their previous size and contents and no reallocation happens. -/
theorem resize_degenerate_or_unchanged_noop (w h : Int) :
    (∀ r : Renderer,
        w ≤ 0 ∨ h ≤ 0 ∨ ((r.width : Int) = w ∧ (r.height : Int) = h) →
        r.OnResize w h = r) ∧
    (∀ c : Camera,
        w ≤ 0 ∨ h ≤ 0 ∨ ((c.viewportWidth : Int) = w ∧ (c.viewportHeight : Int) = h) →
        c.OnResize w h = c) := by
  constructor
  · intro r hr
    rcases hr with h1 | h1 | ⟨hw, hh⟩
    · exact onResize_noop_nonpositive r w h (Or.inl h1)
    · exact onResize_noop_nonpositive r w h (Or.inr h1)
    · by_cases hpos : w ≤ 0 ∨ h ≤ 0
      · exact onResize_noop_nonpositive r w h hpos
      · push_neg at hpos
        exact onResize_noop_unchanged r w h hw hh hpos.1 hpos.2
  · intro c hc
    rcases hc with h1 | h1 | ⟨hw, hh⟩
    · exact camResize_noop_nonpositive c w h (Or.inl h1)
    · exact camResize_noop_nonpositive c w h (Or.inr h1)
    · exact camResize_noop_unchanged c w h hw hh

/-- C7 witness: a zero-width renderer resize and a negative-width camera
resize are both no-ops on the initial states. -/
theorem resize_degenerate_or_unchanged_noop_witness :
    initialRenderer.OnResize 0 5 = initialRenderer ∧
    initialCamera.OnResize (-3) 4 = initialCamera :=
  ⟨(resize_degenerate_or_unchanged_noop 0 5).1 initialRenderer (Or.inl (by decide)),
   (resize_degenerate_or_unchanged_noop (-3) 4).2 initialCamera (Or.inl (by decide))⟩

theorem clamp01_nonneg (q : ℚ) : 0 ≤ clamp01 q := le_max_left 0 _

theorem clamp01_le_one (q : ℚ) : clamp01 q ≤ 1 :=
  max_le (by norm_num) (min_le_left 1 q)

theorem toDisplay_channel_le (q : ℚ) (fi : Nat) :
    (Int.floor (255 * clamp01 (q / (fi : ℚ)))).toNat ≤ 255 := by
  have h1 : (255 : ℚ) * clamp01 (q / (fi : ℚ)) ≤ 255 := by
    have := clamp01_le_one (q / (fi : ℚ))
    nlinarith
  have h2 : Int.floor ((255 : ℚ) * clamp01 (q / (fi : ℚ))) ≤ 255 := by
    calc Int.floor ((255 : ℚ) * clamp01 (q / (fi : ℚ))) ≤ Int.floor ((255 : ℚ)) :=
          Int.floor_mono h1
      _ = 255 := by norm_num
  rw [Int.toNat_le]
  exact_mod_cast h2

theorem mem_map_toDisplay_bounded (l : List Vec4) (fi : Nat) (px : RGBA8)
    (hpx : px ∈ l.map (fun v => toDisplay v fi)) :
    px.r ≤ 255 ∧ px.g ≤ 255 ∧ px.b ≤ 255 ∧ px.a ≤ 255 := by
  rcases List.mem_map.mp hpx with ⟨v, _, hv2⟩
  subst hv2
  exact ⟨toDisplay_channel_le v.x fi, toDisplay_channel_le v.y fi,
    toDisplay_channel_le v.z fi, toDisplay_channel_le v.w fi⟩

theorem rendered_texels_bounded (ren : Renderer) (scene : Scene) (cam : Camera) (px : RGBA8)
    (hpx : px ∈ ((ren.Render scene cam).finalImage.map FinalImage.data).getD []) :
    px.r ≤ 255 ∧ px.g ≤ 255 ∧ px.b ≤ 255 ∧ px.a ≤ 255 := by
  cases himg : ren.finalImage with
  | none => simp [Renderer.Render, himg] at hpx
  | some img =>
    simp only [Renderer.Render, himg, Option.map_some, Option.getD_some] at hpx
    exact mem_map_toDisplay_bounded _ ren.frameIndex px hpx

/-- C6: a sphere whose material index lies outside [0, Materials.length)
is shaded through the index-checked lookup with the default fallback
material (albedo mid-gray, roughness 1, metallic 0); the render pass is a
total function of its inputs (the frame always completes) and every
resolved channel of the produced image is bounded by 255 (in the rational
embedding no NaN value exists; boundedness of every channel is the
corresponding statement). -/
theorem out_of_range_material_uses_default (scene : Scene) (s : Sphere)
    (h : s.MaterialIndex < 0 ∨ (scene.Materials.length : Int) ≤ s.MaterialIndex) :
    lookupMaterial scene.Materials s.MaterialIndex = defaultMaterial ∧
    ∀ (ren : Renderer) (cam : Camera) (px : RGBA8),
      px ∈ ((ren.Render scene cam).finalImage.map FinalImage.data).getD [] →
      px.r ≤ 255 ∧ px.g ≤ 255 ∧ px.b ≤ 255 ∧ px.a ≤ 255 := by
  constructor
  · rcases h with hneg | hge
    · simp [lookupMaterial, not_le.mpr hneg]
    · have h0 : 0 ≤ s.MaterialIndex := le_trans (Int.natCast_nonneg _) hge
      rw [lookupMaterial, if_pos h0]
      apply List.getD_eq_default
      omega
  · intro ren cam px hpx
    exact rendered_texels_bounded ren scene cam px hpx

/-- C6 witness: material index 7 against the two-material list resolves to
the default fallback material. -/
theorem out_of_range_material_uses_default_witness :
    lookupMaterial c6Scene.Materials c6Sphere.MaterialIndex = defaultMaterial :=
  (out_of_range_material_uses_default c6Scene c6Sphere (by decide)).1

theorem modifyAt_mem {α : Type} (f : α → α) (i : Nat) (l : List α) (t : α)
    (ht : t ∈ modifyAt f i l) : t ∈ l ∨ ∃ a ∈ l, t = f a := by
  induction l generalizing i with
  | nil => simp [modifyAt] at ht
  | cons a as ih =>
    cases i with
    | zero =>
      rw [modifyAt] at ht
      rcases List.mem_cons.mp ht with h1 | h1
      · exact Or.inr ⟨a, List.mem_cons_self a as, h1⟩
      · exact Or.inl (List.mem_cons_of_mem a h1)
    | succ n =>
      rw [modifyAt] at ht
      rcases List.mem_cons.mp ht with h1 | h1
      · exact Or.inl (h1 ▸ List.mem_cons_self a as)
      · rcases ih n h1 with h2 | ⟨b, hb, h3⟩
        · exact Or.inl (List.mem_cons_of_mem a h2)
        · exact Or.inr ⟨b, List.mem_cons_of_mem a hb, h3⟩

/-- C10: a material-index drag in the Scene window clamps the edited value
to [0, Materials.length - 1], so when the material list is nonempty and
every sphere's index was in range before the edit, every sphere's index is
in range after it. -/
theorem material_index_edit_stays_in_range (scene : Scene) (i : Nat) (delta : Int)
    (hmats : scene.Materials ≠ [])
    (hinv : ∀ s ∈ scene.Spheres,
        0 ≤ s.MaterialIndex ∧ s.MaterialIndex < (scene.Materials.length : Int))
    (t : Sphere)
    (ht : t ∈ (applyEdit scene (SceneEdit.sphereMaterial i delta)).Spheres) :
    0 ≤ t.MaterialIndex ∧ t.MaterialIndex < (scene.Materials.length : Int) := by
  have hlen : 1 ≤ (scene.Materials.length : Int) := by
    have := List.length_pos.mpr hmats
    omega
  simp only [applyEdit] at ht
  rcases modifyAt_mem _ i _ t ht with hmem | ⟨a, _, ha2⟩
  · exact hinv t hmem
  · subst ha2
    simp only [dragIntClamped]
    constructor
    · exact le_max_left 0 _
    · have h1 : min ((scene.Materials.length : Int) - 1) (a.MaterialIndex + delta) ≤
          (scene.Materials.length : Int) - 1 := min_le_left _ _
      have h2 : max 0 (min ((scene.Materials.length : Int) - 1) (a.MaterialIndex + delta)) ≤
          (scene.Materials.length : Int) - 1 := max_le (by omega) h1
      omega

/-- C10 witness: dragging sphere 0's material index by +7 in the initial
scene keeps the index inside [0, 2). -/
theorem material_index_edit_stays_in_range_witness :
    0 ≤ c10EditedSphere.MaterialIndex ∧
    c10EditedSphere.MaterialIndex < (initialScene.Materials.length : Int) :=
  material_index_edit_stays_in_range initialScene 0 7
    (by exact List.cons_ne_nil _ _) (by decide) c10EditedSphere (by decide)

theorem renderer_width_of_image (r : Renderer) (img : FinalImage)
    (h : r.finalImage = some img) : r.width = img.width := by
  rw [Renderer.width, h]
  rfl

theorem renderer_height_of_image (r : Renderer) (img : FinalImage)
    (h : r.finalImage = some img) : r.height = img.height := by
  rw [Renderer.height, h]
  rfl

/-- C2 counterexample: in a frame whose scene editor edits sphere 0's
radius while 4 samples are already accumulated (frameIndex 5), no
ResetFrameIndex runs before the frame's render call: the render accumulates
a fifth sample on top of the pre-edit samples and leaves frameIndex 6,
whereas a reset before the render would have left it at 2; pre-edit and
post-edit scene states are therefore mixed in the accumulation buffer. -/
theorem edit_renders_without_reset_counterexample :
    c2UI.edits ≠ [] ∧
    c2Layer.m_Renderer.frameIndex = 5 ∧
    (c2Layer.OnUIRender c2UI).m_Renderer.frameIndex = 6 ∧
    ¬ (c2Layer.OnUIRender c2UI).m_Renderer.frameIndex ≤ 2 := by
  refine ⟨by simp [c2UI], rfl, rfl, by decide⟩

/-- C2 amended: edits performed through the scene editor do not trigger
ResetFrameIndex: in any frame without a Render-button press and without a
Reset-button press, whose viewport size equals the already-allocated image
size, the frame index after the frame is the old value plus one when the
accumulate checkbox is on (1 when it is off), regardless of which scene
edits were applied - prior samples are retained and the next sample of the
edited scene is accumulated on top of them; invalidation happens only
through camera movement, the Reset button, or a resize. -/
theorem edits_never_reset_frame_index (l : ExampleLayer) (ui : UIInput) (img : FinalImage)
    (hrender : ui.renderButton = false) (hreset : ui.resetButton = false)
    (himg : l.m_Renderer.finalImage = some img)
    (hw : img.width = ui.availW) (hh : img.height = ui.availH)
    (hwpos : 0 < ui.availW) (hhpos : 0 < ui.availH) :
    (l.OnUIRender ui).m_Renderer.frameIndex =
      if ui.accumulateChecked then l.m_Renderer.frameIndex + 1 else 1 := by
  have hset : ({ l.m_Renderer with settings := ⟨ui.accumulateChecked⟩ } : Renderer).finalImage
      = some img := himg
  have hnoop : ({ l.m_Renderer with settings := ⟨ui.accumulateChecked⟩ } : Renderer).OnResize
      (ui.availW : Int) (ui.availH : Int)
      = { l.m_Renderer with settings := ⟨ui.accumulateChecked⟩ } := by
    apply onResize_noop_unchanged
    · rw [renderer_width_of_image _ img hset, hw]
    · rw [renderer_height_of_image _ img hset, hh]
    · exact_mod_cast hwpos
    · exact_mod_cast hhpos
  simp only [ExampleLayer.OnUIRender, hrender, hreset, Bool.false_eq_true, if_false,
    ExampleLayer.Render, hnoop, render_frameIndex_eq]

/-- C2 amended witness: with one sphere-radius edit and no buttons, a frame
starting at frameIndex 7 ends at frameIndex 8 - the accumulation continued
across the edit. -/
theorem edits_never_reset_frame_index_witness :
    (w2Layer.OnUIRender c2UI).m_Renderer.frameIndex = 8 := by
  have h := edits_never_reset_frame_index w2Layer c2UI c2Image rfl rfl rfl rfl rfl
    (by decide) (by decide)
  simpa [c2UI] using h
